import Mathlib

/-!
Verification development for the provenance marker / msgfees modules.

Part 1 models the marker module: the marker record, its lifecycle state
machine, the permission model and the message dispatch router.  The marker
keeper and handler sources are not part of the available source tree (only
their test suite is), so those definitions are modelled from the spec,
with error messages pinned by the module's own tests.

Part 2 embeds the msgfees module: the ValidateBasic validators from
x/msgfees/types (present in the source tree) and the msg-fee keeper
(SetMsgBasedFee / GetMsgBasedFee / RemoveMsgBasedFee, present in the
source tree).
-/

namespace Provenance

/-- Modelled from the spec: marker lifecycle status enum
{Undefined, Proposed, Finalized, Active, Cancelled, Destroyed} (spec S3/S4.2). -/
inductive MarkerStatus
  | undefined
  | proposed
  | finalized
  | active
  | cancelled
  | destroyed
deriving DecidableEq

/-- Modelled from the spec: marker type enum {Coin, RestrictedCoin} (spec S3). -/
inductive MarkerType
  | coin
  | restrictedCoin
deriving DecidableEq

/-- Modelled from the spec: the six marker permissions
{MINT, BURN, DELETE, WITHDRAW, TRANSFER, ADMIN} (spec S3). -/
inductive Access
  | mint
  | burn
  | del
  | withdraw
  | transfer
  | admin
deriving DecidableEq

/-- Modelled from the spec: an access grant, an (address, permission-set)
pair on a marker's grant list (spec S3). -/
structure AccessGrant where
  address : String
  permissions : List Access
deriving DecidableEq

/-- Modelled from the spec: the marker record, one per denomination
(spec S3); the derived address is stored on the record. -/
structure MarkerAccount where
  denom : String
  address : String
  supply : Nat
  markerType : MarkerType
  status : MarkerStatus
  manager : String
  accessControl : List AccessGrant
  supplyFixed : Bool
  allowGovernanceControl : Bool
deriving DecidableEq

/-- Modelled from the spec: the deterministic one-way derivation of the
marker's controller address from its denom (spec S3 and S9; the exact hash
scheme is an open question in the spec, so any fixed injective derivation
is a faithful model). -/
def markerAddress (denom : String) : String :=
  "markeraddr(" ++ denom ++ ")"

/-- Modelled from the spec: denom syntax check — leading letter,
alphanumeric plus dash/period separators, bounded length (spec S4.2). -/
def isDenomHead (c : Char) : Bool :=
  ('a' ≤ c && c ≤ 'z') || ('A' ≤ c && c ≤ 'Z')

/-- Modelled from the spec: a non-leading denom character is alphanumeric
or one of the separators dash / period (spec S4.2). -/
def isDenomChar (c : Char) : Bool :=
  isDenomHead c || ('0' ≤ c && c ≤ '9') || c == '-' || c == '.'

/-- Modelled from the spec: denom validity — leading letter, remaining
characters denom characters, total length between 3 and 128 (spec S4.2). -/
def validDenom (d : String) : Bool :=
  match d.toList with
  | [] => false
  | c :: rest => isDenomHead c && decide (3 ≤ d.length) && decide (d.length ≤ 128)
      && rest.all isDenomChar

/-- Modelled from the spec: HasAccess(marker, address, permission) — looks
up the grant entry for the address and tests membership of the permission;
absence of an entry means no permissions; no hierarchy (spec S4.1). -/
def hasAccess (m : MarkerAccount) (addr : String) (perm : Access) : Bool :=
  match m.accessControl.find? (fun g => g.address == addr) with
  | none => false
  | some g => g.permissions.contains perm

/-- Modelled from the spec: grant-list update — at most one entry per
address, a later grant replaces the existing entry (spec S3). -/
def setAccessGrant (grants : List AccessGrant) (g : AccessGrant) : List AccessGrant :=
  if grants.any (fun x => x.address == g.address) then
    grants.map (fun x => if x.address = g.address then g else x)
  else grants ++ [g]

/-- Modelled from the spec: the typed domain events appended by successful
operations, carrying kind, denom, string-formatted amount and the
administrative address (spec S4.3; event shapes pinned by the tests). -/
inductive MarkerEvent
  | markerAdd (denom amount status manager markerType : String)
  | markerAddAccess (grantAddr : String) (perms : List Access) (denom admin : String)
  | markerFinalize (denom admin : String)
  | markerActivate (denom admin : String)
  | markerTransfer (amount denom fromAddr toAddr admin : String)
deriving DecidableEq

/-- Modelled from the spec: the typed error taxonomy of S7.  The
unauthorized constructor carries the required manager address (the tests
pin the message "updates to pending marker D can only be made by M"); the
alreadyExists constructor carries the marker's derived address (the tests
pin "marker address already exists for A"); unknownMessageType carries the
foreign message type's name (the tests pin "unknown message type: N"). -/
inductive MarkerErr
  | notFound (denom : String)
  | alreadyExists (markerAddr : String)
  | invalidStatus (current required : String)
  | unauthorized (requiredManager : String)
  | accessDenied (caller : String) (perm : Access)
  | invalidRequest (msg : String)
  | insufficientFunds (denom : String)
  | unknownMessageType (typeName : String)
deriving DecidableEq

/-- Modelled from the spec: the ledger state visible to the marker engine —
the marker-by-denom table, the external balance ledger (account, denom →
amount; amounts are non-negative integers per spec S6), and the event sink
(spec S2/S6). -/
structure LedgerState where
  markers : List MarkerAccount
  balances : String → String → Nat
  events : List MarkerEvent

/-- Modelled from the spec: store lookup of the marker record by denom
(spec S2, Marker Store). -/
def findMarker (st : LedgerState) (denom : String) : Option MarkerAccount :=
  st.markers.find? (fun m => m.denom == denom)

/-- Modelled from the spec: store write-back of an updated marker record,
keyed by denom (spec S2, Marker Store). -/
def setMarker (st : LedgerState) (m : MarkerAccount) : LedgerState :=
  { st with markers := st.markers.map (fun x => if x.denom = m.denom then m else x) }

/-- Modelled from the spec: pointwise update of the external balance
ledger at one (account, denom) cell (spec S6, Balance Ledger). -/
def setBalance (b : String → String → Nat) (acct denom : String) (amt : Nat) :
    String → String → Nat :=
  fun a d => if a = acct ∧ d = denom then amt else b a d

/-- Modelled from the spec: render a marker status for events and
invalid-status error messages (spec S4.2/S7). -/
def statusString : MarkerStatus → String
  | .undefined => "undefined"
  | .proposed => "proposed"
  | .finalized => "finalized"
  | .active => "active"
  | .cancelled => "cancelled"
  | .destroyed => "destroyed"

/-- Modelled from the spec: render a marker type for the add-marker
event (spec S4.3). -/
def typeString : MarkerType → String
  | .coin => "coin"
  | .restrictedCoin => "restricted_coin"

/-- Modelled from the spec: AddMarker (spec S4.2 row 1).  Status checks
come first — an undefined requested status is an invalid request
("invalid marker status"), any status other than Proposed/Finalized is
rejected ("marker can only be created with a Proposed or Finalized
status") — then the duplicate-denom check (error naming the derived
marker address), then denom syntax; the ordering of the status checks
ahead of the duplicate check is pinned by the module's tests, which get
the status errors on an already-registered denom. -/
def handleAddMarker (st : LedgerState) (denom : String) (supply : Nat)
    (manager : String) (status : MarkerStatus) (mtype : MarkerType)
    (supplyFixed allowGov : Bool) : Except MarkerErr LedgerState :=
  if status = .undefined then
    .error (.invalidRequest "invalid marker status")
  else if ¬ (status = .proposed ∨ status = .finalized) then
    .error (.invalidRequest "marker can only be created with a Proposed or Finalized status")
  else
    match findMarker st denom with
    | some _ => .error (.alreadyExists (markerAddress denom))
    | none =>
      if ¬ validDenom denom then .error (.invalidRequest "invalid denom")
      else
        let m : MarkerAccount :=
          { denom := denom, address := markerAddress denom, supply := supply,
            markerType := mtype, status := status, manager := manager,
            accessControl := [], supplyFixed := supplyFixed,
            allowGovernanceControl := allowGov }
        .ok { st with
                markers := st.markers ++ [m],
                events := st.events ++
                  [.markerAdd denom (Nat.repr supply) (statusString status) manager
                    (typeString mtype)] }

/-- Modelled from the spec: AddAccess — grant-list mutation is permitted
for an address holding ADMIN at any status, or for the manager while the
status is Proposed or Finalized; otherwise unauthorized, the error
identifying the required manager address (spec S3 invariant, S4.2; message
pinned by the tests). -/
def handleAddAccess (st : LedgerState) (denom grantor : String)
    (grant : AccessGrant) : Except MarkerErr LedgerState :=
  match findMarker st denom with
  | none => .error (.notFound denom)
  | some m =>
    if hasAccess m grantor .admin
        ∨ (grantor = m.manager ∧ (m.status = .proposed ∨ m.status = .finalized)) then
      .ok (let st2 := setMarker st { m with accessControl := setAccessGrant m.accessControl grant }
           { st2 with events := st2.events ++
              [.markerAddAccess grant.address grant.permissions denom grantor] })
    else .error (.unauthorized m.manager)

/-- Modelled from the spec: Finalize, the Proposed → Finalized transition;
caller must hold ADMIN or be the manager; any other current status is an
invalid-status error naming current and required states (spec S4.2). -/
def handleFinalize (st : LedgerState) (denom caller : String) :
    Except MarkerErr LedgerState :=
  match findMarker st denom with
  | none => .error (.notFound denom)
  | some m =>
    if ¬ (caller = m.manager ∨ hasAccess m caller .admin) then
      .error (.unauthorized m.manager)
    else if ¬ m.status = .proposed then
      .error (.invalidStatus (statusString m.status) (statusString .proposed))
    else
      let st2 := setMarker st { m with status := .finalized }
      .ok { st2 with events := st2.events ++ [.markerFinalize denom caller] }

/-- Modelled from the spec: Activate, the Finalized → Active transition;
caller must hold ADMIN or be the manager; on activation, when the marker
is supply-fixed, the outstanding supply is minted to the marker's own
account if not already minted (spec S4.2). -/
def handleActivate (st : LedgerState) (denom caller : String) :
    Except MarkerErr LedgerState :=
  match findMarker st denom with
  | none => .error (.notFound denom)
  | some m =>
    if ¬ (caller = m.manager ∨ hasAccess m caller .admin) then
      .error (.unauthorized m.manager)
    else if ¬ m.status = .finalized then
      .error (.invalidStatus (statusString m.status) (statusString .finalized))
    else
      let st2 := setMarker st { m with status := .active }
      let b2 := if m.supplyFixed then setBalance st2.balances m.address m.denom m.supply
                else st2.balances
      .ok { st2 with balances := b2,
                     events := st2.events ++ [.markerActivate denom caller] }

/-- Modelled from the spec: Transfer, only applicable to RestrictedCoin
markers, requires TRANSFER permission and Active status; moves the amount
between the two accounts on the external ledger, leaves supply unchanged;
a zero amount is permitted and still emits the transfer event
(spec S4.3). -/
def handleTransfer (st : LedgerState) (denom : String) (amount : Nat)
    (fromAddr toAddr admin : String) : Except MarkerErr LedgerState :=
  match findMarker st denom with
  | none => .error (.notFound denom)
  | some m =>
    if ¬ m.markerType = .restrictedCoin then
      .error (.invalidRequest "marker type is not restricted_coin, brokered transfer not supported")
    else if ¬ hasAccess m admin .transfer then
      .error (.accessDenied admin .transfer)
    else if ¬ m.status = .active then
      .error (.invalidStatus (statusString m.status) (statusString .active))
    else if st.balances fromAddr denom < amount then
      .error (.insufficientFunds denom)
    else
      let b1 := setBalance st.balances fromAddr denom (st.balances fromAddr denom - amount)
      let b2 := setBalance b1 toAddr denom (b1 toAddr denom + amount)
      .ok { st with balances := b2,
                    events := st.events ++
                      [.markerTransfer (Nat.repr amount) denom fromAddr toAddr admin] }

/-- Modelled from the spec: the inbound message variants the router
recognizes, plus a variant for any foreign message type, carrying that
type's name (spec S4.5/S6). -/
inductive MarkerMsg
  | addMarker (denom : String) (supply : Nat) (manager : String)
      (status : MarkerStatus) (mtype : MarkerType) (supplyFixed allowGov : Bool)
  | addAccess (denom grantor : String) (grant : AccessGrant)
  | finalize (denom caller : String)
  | activate (denom caller : String)
  | transfer (denom : String) (amount : Nat) (fromAddr toAddr admin : String)
  | unknown (typeName : String)

/-- Modelled from the spec: the message dispatch router — each recognized
variant maps to exactly one engine entry point; a foreign variant fails
with the unknown-message-type error carrying the type's name
(spec S4.5; message pinned by the tests). -/
def handleMsg (st : LedgerState) : MarkerMsg → Except MarkerErr LedgerState
  | .addMarker d s mgr status t sf ag => handleAddMarker st d s mgr status t sf ag
  | .addAccess d g grant => handleAddAccess st d g grant
  | .finalize d c => handleFinalize st d c
  | .activate d c => handleActivate st d c
  | .transfer d amt f t a => handleTransfer st d amt f t a
  | .unknown name => .error (.unknownMessageType name)

/-- Modelled from the spec: the host's result contract — on success the
new state and no error; on error a nil result (the state is unchanged)
and the typed error (spec S5/S7, all-or-nothing semantics). -/
def step (st : LedgerState) (m : MarkerMsg) : LedgerState × Option MarkerErr :=
  match handleMsg st m with
  | .ok st2 => (st2, none)
  | .error e => (st, some e)

/-- Modelled from the spec: the fresh ledger — no markers, all balances
zero, no events. -/
def freshLedger : LedgerState :=
  { markers := [], balances := fun _ _ => 0, events := [] }

end Provenance

namespace MsgFees

/-- An sdk.Coin: a denom string paired with an arbitrary-precision integer
amount (the Amount field of a Coin struct can hold a negative value even
though the NewCoin constructor rejects one). -/
structure Coin where
  denom : String
  amount : Int
deriving DecidableEq

/-- Coin.IsZero from the sdk: the amount is zero. -/
def Coin.IsZero (c : Coin) : Bool :=
  c.amount = 0

/-- Coin.IsPositive from the sdk: the amount's sign is strictly
positive. -/
def Coin.IsPositive (c : Coin) : Bool :=
  0 < c.amount

/-- Coin denom validity per the sdk's ValidateDenom: a leading letter
followed by 2 to 127 characters that are alphanumeric or one of the
allowed separators. -/
def coinDenomChar (c : Char) : Bool :=
  Provenance.isDenomHead c || ('0' ≤ c && c ≤ '9')
    || c == '/' || c == ':' || c == '.' || c == '_' || c == '-'

/-- Coin denom validity per the sdk's ValidateDenom. -/
def validCoinDenom (d : String) : Bool :=
  match d.toList with
  | [] => false
  | c :: rest => Provenance.isDenomHead c && decide (3 ≤ d.length)
      && decide (d.length ≤ 128) && rest.all coinDenomChar

/-- Coin.Validate from the sdk: an error when the denom is invalid or the
amount negative, nil otherwise. -/
def Coin.Validate (c : Coin) : Option String :=
  if ¬ validCoinDenom c.denom then some "invalid denom"
  else if c.amount < 0 then some "negative coin amount"
  else none

/-- MsgBasedFee from x/msgfees/types: a msg type URL and the additional
fee Coin attached to that msg type (fields per NewMsgBasedFee in the
source). -/
structure MsgBasedFee where
  msgTypeUrl : String
  additionalFee : Coin
deriving DecidableEq

/-- The msgfees error values returned by the validators and the keeper
(ErrEmptyMsgType, ErrInvalidFee, ErrMsgFeeDoesNotExist, and the abstract
proposal-content errors from the gov module). -/
inductive MsgFeesError
  | errEmptyMsgType
  | errInvalidFee
  | errMsgFeeDoesNotExist
  | errInvalidProposalContent (msg : String)
deriving DecidableEq

/-- CreateMsgBasedFeeRequest from x/msgfees/types/msgs.go: the optional
MsgBasedFee payload and the from-address. -/
structure CreateMsgBasedFeeRequest where
  msgBasedFee : Option MsgBasedFee
  fromAddress : String
deriving DecidableEq

/-- CreateMsgBasedFeeRequest.ValidateBasic from x/msgfees/types/msgs.go:
error when the MsgBasedFee payload is nil; error when the additional fee
IsZero; then the source reads `if err := AdditionalFee.Validate(); err ==
nil { return err }` followed by `return nil`, so both branches of the
final check return nil — a negative or malformed fee is not rejected. -/
def CreateMsgBasedFeeRequest.ValidateBasic (m : CreateMsgBasedFeeRequest) :
    Option MsgFeesError :=
  match m.msgBasedFee with
  | none => some .errEmptyMsgType
  | some fee =>
    if fee.additionalFee.IsZero then some .errInvalidFee
    else
      match fee.additionalFee.Validate with
      | none => none
      | some _ => none

/-- Maximum proposal title length from the gov module
(govtypes.MaxTitleLength). -/
def maxTitleLength : Nat := 140

/-- Maximum proposal description length from the gov module
(govtypes.MaxDescriptionLength). -/
def maxDescriptionLength : Nat := 10000

/-- Modelled from cosmos-sdk govtypes.ValidateAbstract (an external
dependency of this repository): blank or overlong titles and
descriptions are rejected, anything else passes. -/
def validateAbstract (title description : String) : Option MsgFeesError :=
  if title.trim.length = 0 then
    some (.errInvalidProposalContent "proposal title cannot be blank")
  else if maxTitleLength < title.length then
    some (.errInvalidProposalContent "proposal title is longer than max length")
  else if description.length = 0 then
    some (.errInvalidProposalContent "proposal description cannot be blank")
  else if maxDescriptionLength < description.length then
    some (.errInvalidProposalContent "proposal description is longer than max length")
  else none

/-- AddMsgBasedFeeProposal from x/msgfees/types/proposal.go: title,
description, the Any-packed Msg (modelled by its optional type URL,
since only nilness is inspected) and the additional fee. -/
structure AddMsgBasedFeeProposal where
  title : String
  description : String
  msg : Option String
  additionalFee : Coin
deriving DecidableEq

/-- AddMsgBasedFeeProposal.ValidateBasic from the source: error when Msg
is nil, error when the additional fee is not positive, then
govtypes.ValidateAbstract. -/
def AddMsgBasedFeeProposal.ValidateBasic (p : AddMsgBasedFeeProposal) :
    Option MsgFeesError :=
  match p.msg with
  | none => some .errEmptyMsgType
  | some _ =>
    if ¬ p.additionalFee.IsPositive then some .errInvalidFee
    else validateAbstract p.title p.description

/-- UpdateMsgBasedFeeProposal from x/msgfees/types/proposal.go: same
fields as the Add variant. -/
structure UpdateMsgBasedFeeProposal where
  title : String
  description : String
  msg : Option String
  additionalFee : Coin
deriving DecidableEq

/-- UpdateMsgBasedFeeProposal.ValidateBasic from the source: error when
Msg is nil, error when the additional fee is not positive, then
govtypes.ValidateAbstract. -/
def UpdateMsgBasedFeeProposal.ValidateBasic (p : UpdateMsgBasedFeeProposal) :
    Option MsgFeesError :=
  match p.msg with
  | none => some .errEmptyMsgType
  | some _ =>
    if ¬ p.additionalFee.IsPositive then some .errInvalidFee
    else validateAbstract p.title p.description

/-- RemoveMsgBasedFeeProposal from x/msgfees/types/proposal.go: title,
description and the Any-packed Msg; no fee field. -/
structure RemoveMsgBasedFeeProposal where
  title : String
  description : String
  msg : Option String
deriving DecidableEq

/-- RemoveMsgBasedFeeProposal.ValidateBasic from the source: error when
Msg is nil, then govtypes.ValidateAbstract. -/
def RemoveMsgBasedFeeProposal.ValidateBasic (p : RemoveMsgBasedFeeProposal) :
    Option MsgFeesError :=
  match p.msg with
  | none => some .errEmptyMsgType
  | some _ => validateAbstract p.title p.description

/-- Modelled from the spec: the msg-fee key space — the record key is a
fixed module key base followed by the msg type URL (the key helper
GetMsgBasedFeeKey is not in the available source; the spec pins the store
as keyed by the message-type identifier, so any fixed injective keying
is faithful). -/
def msgFeeKeyBase : String := "msgfees/"

/-- The key for a msg-based fee record, per the keyed-by-msg-type store
layout of the keeper source. -/
def getMsgBasedFeeKey (msgType : String) : String :=
  msgFeeKeyBase ++ msgType

/-- The msgfees KV store, as a map from raw key to stored record.  A key
with no record models the zero-length byte slice the Go store returns
(marshalled records are never zero-length, since the non-nullable
AdditionalFee field is always emitted, so presence of a record and
non-empty bytes coincide); serialization is modelled as exact
round-tripping. -/
def MsgFeeStore : Type := String → Option MsgBasedFee

/-- SetMsgBasedFee from the keeper source: marshal the record and store
it under the key derived from its MsgTypeUrl. -/
def setMsgBasedFee (st : MsgFeeStore) (fee : MsgBasedFee) : MsgFeeStore :=
  fun k => if k = getMsgBasedFeeKey fee.msgTypeUrl then some fee else st k

/-- GetMsgBasedFee from the keeper source: read the key; when the stored
bytes are empty return (nil, nil); otherwise unmarshal and return the
record with no error (an unmarshal failure is unreachable under exact
round-tripping). -/
def getMsgBasedFee (st : MsgFeeStore) (msgType : String) :
    Option MsgBasedFee × Option MsgFeesError :=
  match st (getMsgBasedFeeKey msgType) with
  | none => (none, none)
  | some fee => (some fee, none)

/-- RemoveMsgBasedFee from the keeper source: read the key; when the
stored bytes are empty return ErrMsgFeeDoesNotExist and leave the store
unchanged; otherwise delete the key and return no error. -/
def removeMsgBasedFee (st : MsgFeeStore) (msgType : String) :
    MsgFeeStore × Option MsgFeesError :=
  match st (getMsgBasedFeeKey msgType) with
  | none => (st, some .errMsgFeeDoesNotExist)
  | some _ =>
    ((fun k => if k = getMsgBasedFeeKey msgType then none else st k), none)

end MsgFees

open Provenance MsgFees

/-- Fixture for the duplicate-denom claim: the marker record created by a
successful AddMarker of "hotdog" with manager "A". -/
def c3M : MarkerAccount :=
  { denom := "hotdog", address := markerAddress "hotdog", supply := 100,
    markerType := .coin, status := .proposed, manager := "A",
    accessControl := [], supplyFixed := true, allowGovernanceControl := true }

/-- Fixture for the duplicate-denom claim: a ledger already holding the
"hotdog" marker. -/
def c3St : LedgerState :=
  { markers := [c3M], balances := fun _ _ => 0, events := [] }

/-- Fixture for the zero-amount transfer claim: an Active RestrictedCoin
marker whose grant list gives "A" the TRANSFER permission. -/
def c4M : MarkerAccount :=
  { denom := "hotdog", address := markerAddress "hotdog", supply := 100,
    markerType := .restrictedCoin, status := .active, manager := "A",
    accessControl := [{ address := "A", permissions := [.transfer] }],
    supplyFixed := true, allowGovernanceControl := true }

/-- Fixture for the zero-amount transfer claim: a ledger holding the
active restricted marker. -/
def c4St : LedgerState :=
  { markers := [c4M], balances := fun _ _ => 0, events := [] }

/-- Fixture for the unauthorized access-grant claim: a Proposed marker
managed by "A" with an empty grant list. -/
def c5M : MarkerAccount :=
  { denom := "hotdog", address := markerAddress "hotdog", supply := 100,
    markerType := .coin, status := .proposed, manager := "A",
    accessControl := [], supplyFixed := true, allowGovernanceControl := true }

/-- Fixture for the unauthorized access-grant claim: a ledger holding the
proposed marker. -/
def c5St : LedgerState :=
  { markers := [c5M], balances := fun _ _ => 0, events := [] }

/-- Fixture for the proposal-validation claim: an Add proposal with a
non-nil Msg and a zero (non-positive) additional fee. -/
def c8P : AddMsgBasedFeeProposal :=
  { title := "add a fee", description := "adds a msg based fee",
    msg := some "/cosmos.bank.v1beta1.MsgSend",
    additionalFee := { denom := "hotdog", amount := 0 } }

/-- Fixture for the get-after-set claim: a concrete fee record. -/
def c9Fee : MsgBasedFee :=
  { msgTypeUrl := "/provenance.marker.v1.MsgAddMarkerRequest",
    additionalFee := { denom := "hotdog", amount := 10 } }

/-- Fixture for the get-after-set claim: the empty fee store. -/
def c9Empty : MsgFeeStore := fun _ => none

/-- Fixture for the remove claim: a concrete fee record. -/
def c10Fee : MsgBasedFee :=
  { msgTypeUrl := "/provenance.marker.v1.MsgAddMarkerRequest",
    additionalFee := { denom := "hotdog", amount := 10 } }

/-- Fixture for the remove claim: a store holding exactly the one fee
record. -/
def c10St : MsgFeeStore :=
  fun k => if k = getMsgBasedFeeKey "/provenance.marker.v1.MsgAddMarkerRequest"
           then some c10Fee else none

/-- Fixture for the create-and-activate scenario: the ledger after
AddMarker("hotdog", supply 100, manager "A", Proposed, Coin). -/
def c1Run1 : LedgerState × Option MarkerErr :=
  step freshLedger (.addMarker "hotdog" 100 "A" .proposed .coin true true)

/-- Fixture for the create-and-activate scenario: the ledger after the
subsequent Finalize("hotdog", "A"). -/
def c1Run2 : LedgerState × Option MarkerErr :=
  step c1Run1.1 (.finalize "hotdog" "A")

/-- Fixture for the create-and-activate scenario: the ledger after the
subsequent Activate("hotdog", "A"). -/
def c1Run3 : LedgerState × Option MarkerErr :=
  step c1Run2.1 (.activate "hotdog" "A")

/-- Helper: overwriting one balance cell with the value it already holds
leaves the ledger pointwise unchanged. -/
theorem setBalance_self (b : String → String → Nat) (acct denom a d : String) :
    setBalance b acct denom (b acct denom) a d = b a d := by
  unfold setBalance
  split
  next h => rw [h.1, h.2]
  next => rfl

/-- Helper: the decimal rendering of zero. -/
theorem natRepr_zero : Nat.repr 0 = "0" := rfl

/-- Claim C1: on a fresh ledger, AddMarker("hotdog", supply 100, manager
"A", Proposed, Coin), then Finalize("hotdog", "A"), then
Activate("hotdog", "A") all succeed, the marker's status ends Active, and
the finalize and activate events are both emitted. -/
theorem c1_create_finalize_activate :
    c1Run1.2 = none ∧ c1Run2.2 = none ∧ c1Run3.2 = none
    ∧ (findMarker c1Run3.1 "hotdog").map MarkerAccount.status = some .active
    ∧ MarkerEvent.markerFinalize "hotdog" "A" ∈ c1Run3.1.events
    ∧ MarkerEvent.markerActivate "hotdog" "A" ∈ c1Run3.1.events := by
  decide

/-- Claim C2: an AddMarker request whose requested initial status is
Active is rejected, for every ledger state and every other request field,
with the invalid-request error "marker can only be created with a
Proposed or Finalized status", and the state (hence the marker table) is
unchanged. -/
theorem c2_add_marker_active_rejected (st : LedgerState) (denom : String)
    (supply : Nat) (manager : String) (t : MarkerType) (sf ag : Bool) :
    step st (.addMarker denom supply manager .active t sf ag) =
      (st, some (.invalidRequest
        "marker can only be created with a Proposed or Finalized status")) := rfl

/-- Claim C3: when a marker is already registered for a denom, a second
AddMarker on that denom (with a creatable requested status) fails with
the already-exists error naming the marker's derived address, and the
existing marker record is unchanged. -/
theorem c3_duplicate_denom_rejected (st : LedgerState) (denom : String)
    (m : MarkerAccount) (supply : Nat) (manager : String)
    (status : MarkerStatus) (t : MarkerType) (sf ag : Bool)
    (hm : findMarker st denom = some m)
    (hs : status = .proposed ∨ status = .finalized) :
    step st (.addMarker denom supply manager status t sf ag) =
      (st, some (.alreadyExists (markerAddress denom)))
    ∧ findMarker (step st (.addMarker denom supply manager status t sf ag)).1 denom
        = some m := by
  rcases hs with h | h <;> subst h <;>
    constructor <;> simp [step, handleMsg, handleAddMarker, hm]

/-- Witness for claim C3 at a concrete ledger holding the "hotdog"
marker. -/
theorem c3_duplicate_denom_witness :
    findMarker c3St "hotdog" = some c3M
    ∧ step c3St (.addMarker "hotdog" 100 "A" .proposed .coin true true)
        = (c3St, some (.alreadyExists (markerAddress "hotdog"))) :=
  ⟨by decide,
   (c3_duplicate_denom_rejected c3St "hotdog" c3M 100 "A" .proposed .coin true true
      (by decide) (Or.inl rfl)).1⟩

/-- Claim C4: on an Active RestrictedCoin marker, a caller holding
TRANSFER may transfer amount 0 between any two accounts: the operation
succeeds, every account balance is unchanged, the marker record (hence
its supply) is unchanged, and the marker-transfer event is still
emitted. -/
theorem c4_zero_transfer_noop (st : LedgerState) (denom : String)
    (m : MarkerAccount) (fromA toA admin : String)
    (hm : findMarker st denom = some m)
    (hr : m.markerType = .restrictedCoin)
    (hs : m.status = .active)
    (ha : hasAccess m admin .transfer = true) :
    (step st (.transfer denom 0 fromA toA admin)).2 = none
    ∧ (∀ a d, (step st (.transfer denom 0 fromA toA admin)).1.balances a d
        = st.balances a d)
    ∧ findMarker (step st (.transfer denom 0 fromA toA admin)).1 denom = some m
    ∧ (step st (.transfer denom 0 fromA toA admin)).1.events
        = st.events ++ [.markerTransfer "0" denom fromA toA admin] := by
  refine ⟨?_, ?_, ?_, ?_⟩
  · simp [step, handleMsg, handleTransfer, hm, hr, hs, ha]
  · intro a d
    simp [step, handleMsg, handleTransfer, hm, hr, hs, ha, setBalance]
    split_ifs <;> simp_all
  · simp [step, handleMsg, handleTransfer, hm, hr, hs, ha]
    exact hm
  · simp [step, handleMsg, handleTransfer, hm, hr, hs, ha, natRepr_zero]

/-- Witness for claim C4 at a concrete active restricted marker with "A"
holding TRANSFER. -/
theorem c4_zero_transfer_witness :
    findMarker c4St "hotdog" = some c4M
    ∧ c4M.markerType = .restrictedCoin
    ∧ c4M.status = .active
    ∧ hasAccess c4M "A" .transfer = true
    ∧ (step c4St (.transfer "hotdog" 0 "A" "B" "A")).2 = none :=
  ⟨by decide, rfl, rfl, by decide,
   (c4_zero_transfer_noop c4St "hotdog" c4M "A" "B" "A"
      (by decide) rfl rfl (by decide)).1⟩

/-- Claim C5: on a Proposed marker, AddAccess by a grantor that is
neither the manager nor a holder of ADMIN fails with the unauthorized
error identifying the required manager address, and the marker record
(hence its access-grant list) is unchanged. -/
theorem c5_unauthorized_add_access (st : LedgerState) (denom grantor : String)
    (m : MarkerAccount) (grant : AccessGrant)
    (hm : findMarker st denom = some m)
    (hst : m.status = .proposed)
    (hmgr : grantor ≠ m.manager)
    (hadm : hasAccess m grantor .admin = false) :
    step st (.addAccess denom grantor grant) = (st, some (.unauthorized m.manager))
    ∧ findMarker (step st (.addAccess denom grantor grant)).1 denom = some m := by
  constructor <;> simp [step, handleMsg, handleAddAccess, hm, hst, hmgr, hadm]

/-- Witness for claim C5 at a concrete proposed marker managed by "A",
with grantor "B" holding nothing. -/
theorem c5_unauthorized_add_access_witness :
    ("B" : String) ≠ "A"
    ∧ hasAccess c5M "B" .admin = false
    ∧ step c5St (.addAccess "hotdog" "B" { address := "B", permissions := [.mint] })
        = (c5St, some (.unauthorized "A")) :=
  ⟨by decide, by decide,
   (c5_unauthorized_add_access c5St "hotdog" "B" c5M
      { address := "B", permissions := [.mint] }
      (by decide) rfl (by decide) (by decide)).1⟩

/-- Claim C6: for every ledger state, a message outside the marker
module's recognized variants produces no new state (a nil result) and the
unknown-message-type error carrying the foreign type's name. -/
theorem c6_unknown_message (st : LedgerState) (typeName : String) :
    step st (.unknown typeName) = (st, some (.unknownMessageType typeName)) := rfl

/-- Claim C7: an AddMarker request whose requested initial status is the
undefined status value is rejected, for every ledger state and every
other request field, with the invalid-request error "invalid marker
status", and the state is unchanged. -/
theorem c7_add_marker_undefined_rejected (st : LedgerState) (denom : String)
    (supply : Nat) (manager : String) (t : MarkerType) (sf ag : Bool) :
    step st (.addMarker denom supply manager .undefined t sf ag) =
      (st, some (.invalidRequest "invalid marker status")) := rfl

/-- Counterexample for claim C8: a CreateMsgBasedFeeRequest whose
additional fee is present and negative — hence not positive — passes
ValidateBasic with no error, because the source's final check reads
`if err := AdditionalFee.Validate(); err == nil { return err }` and then
`return nil`, so a failed Validate is swallowed.  The claim's "returns an
error whenever an additional fee is present but not positive" is
therefore false at this input. -/
theorem c8_negative_fee_counterexample :
    CreateMsgBasedFeeRequest.ValidateBasic
      { msgBasedFee := some
          { msgTypeUrl := "/provenance.marker.v1.MsgAddMarkerRequest",
            additionalFee := { denom := "hotdog", amount := -5 } },
        fromAddress := "setter" } = none
    ∧ Coin.IsPositive { denom := "hotdog", amount := -5 } = false := by
  decide

/-- Claim C8 (amended): exact characterization of the four validators.
The Add and Update proposals error on a nil Msg, error on a non-positive
additional fee, and otherwise defer to the gov module's abstract content
validation of title and description; the Remove proposal errors on a nil
Msg and otherwise defers to abstract content validation;
CreateMsgBasedFeeRequest errors on a nil MsgBasedFee payload, errors on a
zero additional fee, and accepts everything else — in particular a
negative fee.  All four are pure functions of the message value and read
no store state. -/
theorem c8_validate_basic_characterization :
    (∀ p : AddMsgBasedFeeProposal,
      (p.msg = none → p.ValidateBasic = some .errEmptyMsgType)
      ∧ (p.msg ≠ none → p.additionalFee.IsPositive = false →
          p.ValidateBasic = some .errInvalidFee)
      ∧ (p.msg ≠ none → p.additionalFee.IsPositive = true →
          p.ValidateBasic = validateAbstract p.title p.description))
    ∧ (∀ p : UpdateMsgBasedFeeProposal,
      (p.msg = none → p.ValidateBasic = some .errEmptyMsgType)
      ∧ (p.msg ≠ none → p.additionalFee.IsPositive = false →
          p.ValidateBasic = some .errInvalidFee)
      ∧ (p.msg ≠ none → p.additionalFee.IsPositive = true →
          p.ValidateBasic = validateAbstract p.title p.description))
    ∧ (∀ p : RemoveMsgBasedFeeProposal,
      (p.msg = none → p.ValidateBasic = some .errEmptyMsgType)
      ∧ (p.msg ≠ none → p.ValidateBasic = validateAbstract p.title p.description))
    ∧ (∀ m : CreateMsgBasedFeeRequest,
      (m.msgBasedFee = none → m.ValidateBasic = some .errEmptyMsgType)
      ∧ (∀ fee, m.msgBasedFee = some fee →
          (fee.additionalFee.IsZero = true → m.ValidateBasic = some .errInvalidFee)
          ∧ (fee.additionalFee.IsZero = false → m.ValidateBasic = none))) := by
  refine ⟨?_, ?_, ?_, ?_⟩
  · intro p
    refine ⟨?_, ?_, ?_⟩
    · intro h; simp [AddMsgBasedFeeProposal.ValidateBasic, h]
    · intro h1 h2
      cases hp : p.msg with
      | none => exact absurd hp h1
      | some u => simp [AddMsgBasedFeeProposal.ValidateBasic, hp, h2]
    · intro h1 h2
      cases hp : p.msg with
      | none => exact absurd hp h1
      | some u => simp [AddMsgBasedFeeProposal.ValidateBasic, hp, h2]
  · intro p
    refine ⟨?_, ?_, ?_⟩
    · intro h; simp [UpdateMsgBasedFeeProposal.ValidateBasic, h]
    · intro h1 h2
      cases hp : p.msg with
      | none => exact absurd hp h1
      | some u => simp [UpdateMsgBasedFeeProposal.ValidateBasic, hp, h2]
    · intro h1 h2
      cases hp : p.msg with
      | none => exact absurd hp h1
      | some u => simp [UpdateMsgBasedFeeProposal.ValidateBasic, hp, h2]
  · intro p
    refine ⟨?_, ?_⟩
    · intro h; simp [RemoveMsgBasedFeeProposal.ValidateBasic, h]
    · intro h1
      cases hp : p.msg with
      | none => exact absurd hp h1
      | some u => simp [RemoveMsgBasedFeeProposal.ValidateBasic, hp]
  · intro m
    refine ⟨?_, ?_⟩
    · intro h; simp [CreateMsgBasedFeeRequest.ValidateBasic, h]
    · intro fee hfee
      refine ⟨?_, ?_⟩
      · intro hz; simp [CreateMsgBasedFeeRequest.ValidateBasic, hfee, hz]
      · intro hz
        cases hv : fee.additionalFee.Validate <;>
          simp [CreateMsgBasedFeeRequest.ValidateBasic, hfee, hz, hv]

/-- Witness for the amended claim C8 at a concrete Add proposal whose fee
is zero: ValidateBasic rejects it with the invalid-fee error. -/
theorem c8_validate_basic_witness :
    c8P.msg ≠ none
    ∧ Coin.IsPositive c8P.additionalFee = false
    ∧ c8P.ValidateBasic = some .errInvalidFee :=
  ⟨by decide, rfl,
   (c8_validate_basic_characterization.1 c8P).2.1 (by decide) rfl⟩

/-- Claim C9: GetMsgBasedFee immediately after SetMsgBasedFee for the same
msg type URL returns the stored record with no error, and GetMsgBasedFee
for a msg type with no stored record returns nil with no error. -/
theorem c9_get_set_round_trip (st : MsgFeeStore) (fee : MsgBasedFee)
    (msgType : String) :
    getMsgBasedFee (setMsgBasedFee st fee) fee.msgTypeUrl = (some fee, none)
    ∧ (st (getMsgBasedFeeKey msgType) = none →
        getMsgBasedFee st msgType = (none, none)) := by
  constructor
  · simp [getMsgBasedFee, setMsgBasedFee]
  · intro h
    simp [getMsgBasedFee, h]

/-- Witness for claim C9 at the empty store and a concrete fee record. -/
theorem c9_get_set_round_trip_witness :
    c9Empty (getMsgBasedFeeKey "other") = none
    ∧ getMsgBasedFee (setMsgBasedFee c9Empty c9Fee)
        "/provenance.marker.v1.MsgAddMarkerRequest" = (some c9Fee, none)
    ∧ getMsgBasedFee c9Empty "other" = (none, none) :=
  ⟨rfl,
   (c9_get_set_round_trip c9Empty c9Fee "other").1,
   (c9_get_set_round_trip c9Empty c9Fee "other").2 rfl⟩

/-- Claim C10: RemoveMsgBasedFee errors with ErrMsgFeeDoesNotExist exactly
when no record is stored for the msg type, leaving the store unchanged in
that case; when a record exists it deletes it, so a subsequent
GetMsgBasedFee for the same msg type returns nil with no error. -/
theorem c10_remove_msg_based_fee (st : MsgFeeStore) (msgType : String) :
    ((removeMsgBasedFee st msgType).2 = some .errMsgFeeDoesNotExist
      ↔ st (getMsgBasedFeeKey msgType) = none)
    ∧ (st (getMsgBasedFeeKey msgType) = none →
        removeMsgBasedFee st msgType = (st, some .errMsgFeeDoesNotExist))
    ∧ (∀ fee, st (getMsgBasedFeeKey msgType) = some fee →
        (removeMsgBasedFee st msgType).2 = none
        ∧ getMsgBasedFee (removeMsgBasedFee st msgType).1 msgType = (none, none)) := by
  cases h : st (getMsgBasedFeeKey msgType) with
  | none =>
    refine ⟨?_, ?_, ?_⟩
    · simp [removeMsgBasedFee, h]
    · intro _; simp [removeMsgBasedFee, h]
    · intro fee hfee; simp at hfee
  | some fee0 =>
    refine ⟨?_, ?_, ?_⟩
    · simp [removeMsgBasedFee, h]
    · intro h2; simp at h2
    · intro fee hfee
      refine ⟨?_, ?_⟩
      · simp [removeMsgBasedFee, h]
      · simp [removeMsgBasedFee, getMsgBasedFee, h]

/-- Witness for claim C10 at a store holding exactly one fee record:
removing it succeeds and a subsequent get returns nil. -/
theorem c10_remove_msg_based_fee_witness :
    c10St (getMsgBasedFeeKey "/provenance.marker.v1.MsgAddMarkerRequest")
      = some c10Fee
    ∧ (removeMsgBasedFee c10St "/provenance.marker.v1.MsgAddMarkerRequest").2 = none
    ∧ getMsgBasedFee
        (removeMsgBasedFee c10St "/provenance.marker.v1.MsgAddMarkerRequest").1
        "/provenance.marker.v1.MsgAddMarkerRequest" = (none, none) :=
  ⟨by simp [c10St],
   ((c10_remove_msg_based_fee c10St "/provenance.marker.v1.MsgAddMarkerRequest").2.2
      c10Fee (by simp [c10St])).1,
   ((c10_remove_msg_based_fee c10St "/provenance.marker.v1.MsgAddMarkerRequest").2.2
      c10Fee (by simp [c10St])).2⟩
